import Mathlib

/-!
# smtp_connection_helper: the SMTP session driver

A shallow embedding of `go/cmd/smtp_connection_helper/main.go`.

The program talks to two libraries, `go-smtp` (the `*smtp.Client`) and
`crypto/tls`.  Their behaviour is not part of the program, so it is a
parameter here: a `Client` answers every method call as a function of the
calls made on it so far, and a `Network` answers the two ways of dialling.
Every call the program makes is written to a log of `Event`s together with
the answer it got, so that statements about the order and the number of
transport operations are statements about that log.
-/

namespace SmtpConnectionHelper

/-! ## Constants (main.go, lines 16-23) -/

def AuthPlain : String := "plain"
def AuthAnonymous : String := "anonymous"
def AuthExternal : String := "external"
def AuthOauthBearer : String := "oauthbearer"
def AuthDisable : String := "disable"
def AuthLogin : String := "login"

/-! ## Go values -/

/-- An error value handed back by a library call.  `msg` is what its
`Error()` method returns; `id` stands for the identity of the value, so that
two errors with the same text can still be told apart. -/
structure LibError where
  msg : String
  id : Nat
deriving DecidableEq, Repr

/-- A Go `error` that is not nil: either made by this program with
`errors.New`, or handed back by a library call. -/
inductive GoError where
  | errorsNew (msg : String)
  | lib (e : LibError)
deriving DecidableEq, Repr

/-- The `Error()` method. -/
def GoError.Error : GoError → String
  | .errorsNew msg => msg
  | .lib e => e.msg

/-- A `sasl.Client` as built by the constructors the program uses. -/
inductive SaslClient where
  | plain (identity username password : String)
  | login (username password : String)
  | anonymous (trace : String)
  | external (identity : String)
  | oauthBearer (username token host : String) (port : Int)
deriving DecidableEq, Repr

/-- The methods of `*smtp.Client` (and of the data writer it hands out) that
return an error and that `sendEmail` invokes.  `mail` and `rcpt` are called
with nil options and `startTLS` with a nil config, as in the source; `write`
is the `io.Copy` of the composed message into the data writer and
`dataClose` the `Close` of that writer. -/
inductive Op where
  | hello (localName : String)
  | startTLS
  | auth (a : SaslClient)
  | mail (sender : String)
  | rcpt (recipient : String)
  | data
  | write (body : String)
  | dataClose
  | quit
  | close
deriving DecidableEq, Repr

/-- The two ways `getSmtpClient` opens a connection. -/
inductive Dial where
  | tlsDial (addr serverName : String) (insecureSkipVerify : Bool)
  | smtpDial (addr : String)
deriving DecidableEq, Repr

/-- One call made by the program, with the answer it received. -/
inductive Event where
  | dial (d : Dial) (err : Option LibError)
  | op (o : Op) (err : Option LibError)
  | extension (name : String) (ok : Bool)
deriving DecidableEq, Repr

/-- The `*smtp.Client` the program drives.  `reply h o` is the error that
method `o` returns when the calls in `h` were made on the client before;
`extension h name` is the boolean that `Extension(name)` returns. -/
structure Client where
  reply : List Event → Op → Option LibError
  extension : List Event → String → Bool

/-- What `tls.Dial` followed by `smtp.NewClient`, and `smtp.Dial`, answer. -/
structure Network where
  tlsDial : String → String → Bool → Except LibError Client
  smtpDial : String → Except LibError Client

/-- How a Go function call ends: it returns its `error` result (`none` is
nil), or it panics. -/
inductive Outcome where
  | returned (err : Option GoError)
  | panicked
deriving DecidableEq, Repr

/-- What a run of one of the `sendEmail...` functions did. -/
structure Run where
  stdout : List String
  events : List Event
  out : Outcome
deriving DecidableEq, Repr

/-- Invoke method `o` on the client after the calls `h`: the error it
returns and the log extended by the call. -/
def Client.call (c : Client) (h : List Event) (o : Op) : Option LibError × List Event :=
  (c.reply h o, h ++ [Event.op o (c.reply h o)])

/-- Invoke `Extension(name)` on the client after the calls `h`. -/
def Client.query (c : Client) (h : List Event) (name : String) : Bool × List Event :=
  (c.extension h name, h ++ [Event.extension name (c.extension h name)])

/-! ## sendEmail (main.go, lines 178-247) -/

/-- The message text, lines 189-193. -/
def composeBody (sender recipient subject message : String) : String :=
  "MIME-version: 1.0;\nContent-Type: text/html; charset=\"UTF-8\";\r\n"
    ++ ("From: " ++ sender ++ "\r\n")
    ++ ("To: " ++ recipient ++ "\r\n")
    ++ ("Subject: " ++ subject ++ "\r\n")
    ++ ("\r\n" ++ message ++ "\r\n")

/-- The error of line 211. -/
def errNoAuth : GoError := GoError.errorsNew "smtp: server doesn't support AUTH"

/-- Lines 202-206: the in-band security upgrade, after the calls `h`.

    if ok, _ := smtpClient.Extension("STARTTLS"); ok {
      if err = smtpClient.StartTLS(nil); err != nil { return }
    }
-/
def upgradeSecurity (c : Client) (h : List Event) : List Event × Option GoError :=
  match c.query h "STARTTLS" with
  | (true, h) =>
    match c.call h Op.startTLS with
    | (some e, h) => (h, some (GoError.lib e))
    | (none, h) => (h, none)
  | (false, h) => (h, none)

/-- Lines 208-218: the authentication, after the calls `h`.

    if authClient != nil {
      ok, _ := smtpClient.Extension("AUTH")
      if !ok { return errors.New("smtp: server doesn't support AUTH") }
      else { err = smtpClient.Auth(authClient); if err != nil { return } }
    }
-/
def authenticate (c : Client) (authClient : Option SaslClient) (h : List Event) :
    List Event × Option GoError :=
  match authClient with
  | none => (h, none)
  | some a =>
    match c.query h "AUTH" with
    | (false, h) => (h, some errNoAuth)
    | (true, h) =>
      match c.call h (Op.auth a) with
      | (some e, h) => (h, some (GoError.lib e))
      | (none, h) => (h, none)

/-- Lines 220-246: the envelope, the data transfer and `Quit`, after the
calls `h`. -/
def sendEnvelopeAndData (c : Client) (sender recipient body : String) (h : List Event) :
    List Event × Option GoError :=
  -- err = smtpClient.Mail(sender, nil)
  match c.call h (Op.mail sender) with
  | (some e, h) => (h, some (GoError.lib e))
  | (none, h) =>
  -- err = smtpClient.Rcpt(recipient, nil)
  match c.call h (Op.rcpt recipient) with
  | (some e, h) => (h, some (GoError.lib e))
  | (none, h) =>
  -- wc, err = smtpClient.Data()
  match c.call h Op.data with
  | (some e, h) => (h, some (GoError.lib e))
  | (none, h) =>
  -- _, err = io.Copy(wc, strings.NewReader(body))
  match c.call h (Op.write body) with
  | (some e, h) => (h, some (GoError.lib e))
  | (none, h) =>
  -- err = wc.Close()
  match c.call h Op.dataClose with
  | (some e, h) => (h, some (GoError.lib e))
  | (none, h) =>
  -- return smtpClient.Quit()
  match c.call h Op.quit with
  | (err, h) => (h, err.map GoError.lib)

/-- Lines 189-246: the body of `sendEmail` up to its `return`, giving the log
of calls and the value of the named result `err` at the return. -/
def sendEmailBody (c : Client) (authClient : Option SaslClient)
    (sender recipient subject message clientHostname : String) :
    List Event × Option GoError :=
  let body := composeBody sender recipient subject message
  -- err = smtpClient.Hello(clientHostname)
  match c.call [] (Op.hello clientHostname) with
  | (some e, h) => (h, some (GoError.lib e))
  | (none, h) =>
  match upgradeSecurity c h with
  | (h, some e) => (h, some e)
  | (h, none) =>
  match authenticate c authClient h with
  | (h, some e) => (h, some e)
  | (h, none) => sendEnvelopeAndData c sender recipient body h

/-- The deferred function, lines 179-187, run on the log `h` and the named
result `err` that the body left.  `rerr.Error()` is evaluated exactly when
`err == nil`; on a nil `rerr` that is a method call on a nil interface
value, which panics. -/
def deferredClose (c : Client) (h : List Event) (err : Option GoError) : List Event × Outcome :=
  -- rerr := smtpClient.Close()
  match c.call h Op.close with
  | (rerr, h) =>
    match err with
    | some e => (h, Outcome.returned (some e))
    | none =>
      match rerr with
      | none => (h, Outcome.panicked)
      | some r =>
        if (GoError.lib r).Error ≠ "use of closed network connection" then
          (h, Outcome.returned (some (GoError.lib r)))
        else
          (h, Outcome.returned none)

/-- The function `sendEmail`, lines 178-247. -/
def sendEmail (smtpClient : Client) (authClient : Option SaslClient)
    (sender recipient subject message clientHostname method : String) : Run :=
  match sendEmailBody smtpClient authClient sender recipient subject message clientHostname with
  | (h, err) =>
    match deferredClose smtpClient h err with
    | (h, out) =>
      { stdout := ["Sending email with auth method: " ++ method], events := h, out := out }

/-! ## Opening the connection (main.go, lines 156-176) -/

/-- The address `fmt.Sprintf("%s:%d", host, port)`. -/
def address (host : String) (port : Int) : String :=
  host ++ ":" ++ toString port

/-- The function `newImplicitTLSClient`: `tls.Dial` with `ServerName: host`
and `InsecureSkipVerify: insecure`, then `smtp.NewClient`. -/
def newImplicitTLSClient (net : Network) (host : String) (port : Int) (insecure : Bool) :
    Event × Except LibError Client :=
  match net.tlsDial (address host port) host insecure with
  | Except.error err => (Event.dial (Dial.tlsDial (address host port) host insecure) (some err), Except.error err)
  | Except.ok c => (Event.dial (Dial.tlsDial (address host port) host insecure) none, Except.ok c)

/-- The function `newExplicitStartTLSClient`: `smtp.Dial`. -/
def newExplicitStartTLSClient (net : Network) (host : String) (port : Int) :
    Event × Except LibError Client :=
  match net.smtpDial (address host port) with
  | Except.error err => (Event.dial (Dial.smtpDial (address host port)) (some err), Except.error err)
  | Except.ok c => (Event.dial (Dial.smtpDial (address host port)) none, Except.ok c)

/-- The function `getSmtpClient`. -/
def getSmtpClient (net : Network) (host : String) (port : Int) (implicitTLS insecure : Bool) :
    Event × Except LibError Client :=
  if implicitTLS then
    newImplicitTLSClient net host port insecure
  else
    newExplicitStartTLSClient net host port

/-! ## The six entry points (main.go, lines 80-154) -/

/-- A run that made no call and returned `err`. -/
def Run.fail (err : GoError) : Run :=
  { stdout := [], events := [], out := Outcome.returned (some err) }

/-- The run `r` with the call `ev` made before it. -/
def Run.after (ev : Event) (r : Run) : Run :=
  { r with events := ev :: r.events }

/-- The function `sendEmailPlainAuth`. -/
def sendEmailPlainAuth (net : Network) (host : String) (port : Int)
    (identity username password sender recipient subject message clientHostname : String)
    (implicitTLS insecure : Bool) : Run :=
  if username = "" ∨ password = "" then
    Run.fail (GoError.errorsNew ("username and password must not be empty for auth " ++ AuthPlain))
  else
    match getSmtpClient net host port implicitTLS insecure with
    | (ev, Except.error err) => Run.after ev (Run.fail (GoError.lib err))
    | (ev, Except.ok smtpClient) =>
      let authClient := SaslClient.plain identity username password
      Run.after ev
        (sendEmail smtpClient (some authClient) sender recipient subject message clientHostname AuthPlain)

/-- The function `sendEmailLoginAuth`. -/
def sendEmailLoginAuth (net : Network) (host : String) (port : Int)
    (username password sender recipient subject message clientHostname : String)
    (implicitTLS insecure : Bool) : Run :=
  if username = "" ∨ password = "" then
    Run.fail (GoError.errorsNew ("username and password must not be empty for auth " ++ AuthLogin))
  else
    match getSmtpClient net host port implicitTLS insecure with
    | (ev, Except.error err) => Run.after ev (Run.fail (GoError.lib err))
    | (ev, Except.ok smtpClient) =>
      let authClient := SaslClient.login username password
      Run.after ev
        (sendEmail smtpClient (some authClient) sender recipient subject message clientHostname AuthLogin)

/-- The function `sendEmailAnonymousAuth`. -/
def sendEmailAnonymousAuth (net : Network) (host : String) (port : Int)
    (trace sender recipient subject message clientHostname : String)
    (implicitTLS insecure : Bool) : Run :=
  match getSmtpClient net host port implicitTLS insecure with
  | (ev, Except.error err) => Run.after ev (Run.fail (GoError.lib err))
  | (ev, Except.ok smtpClient) =>
    let authClient := SaslClient.anonymous trace
    Run.after ev
      (sendEmail smtpClient (some authClient) sender recipient subject message clientHostname AuthAnonymous)

/-- The function `sendEmailExternalAuth`. -/
def sendEmailExternalAuth (net : Network) (host : String) (port : Int)
    (identity sender recipient subject message clientHostname : String)
    (implicitTLS insecure : Bool) : Run :=
  match getSmtpClient net host port implicitTLS insecure with
  | (ev, Except.error err) => Run.after ev (Run.fail (GoError.lib err))
  | (ev, Except.ok smtpClient) =>
    let authClient := SaslClient.external identity
    Run.after ev
      (sendEmail smtpClient (some authClient) sender recipient subject message clientHostname AuthExternal)

/-- The function `sendEmailOauthBearerAuth`. -/
def sendEmailOauthBearerAuth (net : Network) (host : String) (port : Int)
    (username token sender recipient subject message clientHostname : String)
    (implicitTLS insecure : Bool) : Run :=
  if username = "" ∨ token = "" then
    Run.fail (GoError.errorsNew ("username and token must not be empty for auth " ++ AuthOauthBearer))
  else
    match getSmtpClient net host port implicitTLS insecure with
    | (ev, Except.error err) => Run.after ev (Run.fail (GoError.lib err))
    | (ev, Except.ok smtpClient) =>
      let authClient := SaslClient.oauthBearer username token host port
      Run.after ev
        (sendEmail smtpClient (some authClient) sender recipient subject message clientHostname AuthOauthBearer)

/-- The function `sendEmailDisableAuth`: the auth client is nil. -/
def sendEmailDisableAuth (net : Network) (host : String) (port : Int)
    (sender recipient subject message clientHostname : String)
    (implicitTLS insecure : Bool) : Run :=
  match getSmtpClient net host port implicitTLS insecure with
  | (ev, Except.error err) => Run.after ev (Run.fail (GoError.lib err))
  | (ev, Except.ok smtpClient) =>
    Run.after ev
      (sendEmail smtpClient none sender recipient subject message clientHostname AuthDisable)

/-! ## main and printUsage (main.go, lines 25-78 and 249-276) -/

/-- The values of the command-line flags after `flag.Parse()`. -/
structure Flags where
  sender : String
  recipient : String
  host : String
  port : Int
  auth : String
  implicitTLSArg : Bool
  insecure : Bool
  username : String
  password : String
  identity : String
  token : String
  trace : String
  subject : String
  message : String
  clientHostnameArg : String
  help : Bool
deriving DecidableEq, Repr

/-- The defaults of the flag declarations, lines 25-40: what a flag holds
when it is not given on the command line. -/
def Flags.defaults : Flags :=
  { sender := "", recipient := "", host := "", port := 0, auth := "",
    implicitTLSArg := false, insecure := false, username := "", password := "",
    identity := "", token := "", trace := "",
    subject := "Testing SMTP Server Connection",
    message := "This is a test email message sent with smtp_connection_helper!",
    clientHostnameArg := "localhost", help := false }

/-- The lines `printUsage` writes to standard output. -/
def printUsage : List String :=
  [ "",
    "",
    "'smtp_connection_helper' is a simple tool used to ensure you can successfully connect to an smtp server.",
    "If the connection is successful, this tool will send a test email to a single recipient from a single sender.",
    "By default 'smtp_connection_helper' will attempt to connect to the SMTP server with STARTTLS. To use implicit TLS, use --implicit-tls",
    "",
    "Usage:",
    "",
    "./smtp_connection_helper \\",
    "--host <smtp hostname> \\",
    "--port <smtp port> \\",
    "--from <email address> \\",
    "--to <email address> \\",
    "--message \x7bThis is a test email message sent with smtp_connection_helper!\x7d \\",
    "--subject \x7bTesting SMTP Server Connection\x7d \\",
    "--client-hostname \x7blocalhost\x7d \\",
    "--auth <" ++ AuthPlain ++ "|" ++ AuthLogin ++ "|" ++ AuthExternal ++ "|" ++ AuthAnonymous
      ++ "|" ++ AuthOauthBearer ++ "|" ++ AuthDisable ++ "> \\",
    "[--username smtp username] \\",
    "[--password smtp password] \\",
    "[--token smtp oauth token] \\",
    "[--identity smtp identity] \\",
    "[--trace anonymous trace] \\",
    "[--implicit-tls] \\",
    "[--insecure]",
    "",
    "" ]

/-- What a run of the program did: the lines on standard output, the
messages on standard error (a `log.Fatal` message without its time stamp, or
the first line of a panic report), the library calls, and the exit status. -/
structure Process where
  stdout : List String
  stderr : List String
  events : List Event
  status : Nat
deriving DecidableEq, Repr

/-- The message of line 51. -/
def errMissingArgs : String :=
  "one or all required arguments not supplied, must supply: --host, --port, --from, --to, --subject, --message, --client-hostname"

/-- The `switch` of lines 55-70. -/
def dispatch (net : Network) (f : Flags) : Run :=
  if f.auth = AuthPlain then
    sendEmailPlainAuth net f.host f.port f.identity f.username f.password f.sender f.recipient
      f.subject f.message f.clientHostnameArg f.implicitTLSArg f.insecure
  else if f.auth = AuthLogin then
    sendEmailLoginAuth net f.host f.port f.username f.password f.sender f.recipient
      f.subject f.message f.clientHostnameArg f.implicitTLSArg f.insecure
  else if f.auth = AuthAnonymous then
    sendEmailAnonymousAuth net f.host f.port f.trace f.sender f.recipient
      f.subject f.message f.clientHostnameArg f.implicitTLSArg f.insecure
  else if f.auth = AuthExternal then
    sendEmailExternalAuth net f.host f.port f.identity f.sender f.recipient
      f.subject f.message f.clientHostnameArg f.implicitTLSArg f.insecure
  else if f.auth = AuthOauthBearer then
    sendEmailOauthBearerAuth net f.host f.port f.username f.token f.sender f.recipient
      f.subject f.message f.clientHostnameArg f.implicitTLSArg f.insecure
  else if f.auth = AuthDisable then
    sendEmailDisableAuth net f.host f.port f.sender f.recipient
      f.subject f.message f.clientHostnameArg f.implicitTLSArg f.insecure
  else
    Run.fail (GoError.errorsNew ("Unsupported auth method: " ++ f.auth))

/-- The function `main`, lines 42-78.  `log.Fatal` writes its argument to
standard error and exits with status 1; an unrecovered panic exits with
status 2; returning from `main` exits with status 0. -/
def main (net : Network) (f : Flags) : Process :=
  if f.help then
    { stdout := printUsage, stderr := [], events := [], status := 0 }
  else if f.host = "" ∨ f.port < 1 ∨ f.sender = "" ∨ f.recipient = "" ∨ f.subject = ""
      ∨ f.message = "" ∨ f.clientHostnameArg = "" then
    { stdout := printUsage, stderr := [errMissingArgs], events := [], status := 1 }
  else
    match dispatch net f with
    | { stdout := out, events := evs, out := Outcome.returned (some err) } =>
      { stdout := out, stderr := [err.Error], events := evs, status := 1 }
    | { stdout := out, events := evs, out := Outcome.returned none } =>
      { stdout := out ++ ["Successfully sent email!"], stderr := [], events := evs, status := 0 }
    | { stdout := out, events := evs, out := Outcome.panicked } =>
      { stdout := out,
        stderr := ["panic: runtime error: invalid memory address or nil pointer dereference"],
        events := evs, status := 2 }

/-! ## The shape of a session

Every run of `sendEmail` stops at one of ten places.  The definitions of this
section name those places and write down the log each one leaves; the lemma
`sendEmail_shape` shows that a run of the code always has one of these logs
and that the log holds the answers the client gave. -/

/-- The log `evs`, made after the calls `h`, holds the answers of the client
`c`, and no dialling. -/
def faithful (c : Client) : List Event → List Event → Prop
  | _, [] => True
  | h, Event.op o r :: rest => c.reply h o = r ∧ faithful c (h ++ [Event.op o r]) rest
  | h, Event.extension n b :: rest =>
    c.extension h n = b ∧ faithful c (h ++ [Event.extension n b]) rest
  | _, Event.dial _ _ :: _ => False

/-- Where the body of `sendEmail` returned: at the step that failed, with
its error, or at the final `Quit` with whatever that returned. -/
inductive Stop where
  | hello (e : LibError)
  | startTLS (e : LibError)
  | noAuth
  | auth (e : LibError)
  | mail (e : LibError)
  | rcpt (e : LibError)
  | data (e : LibError)
  | write (e : LibError)
  | dataClose (e : LibError)
  | quit (rq : Option LibError)

/-- The log of a successful greeting and security step; `tls` is the answer
to the STARTTLS query. -/
def secured (hn : String) (tls : Bool) : List Event :=
  [Event.op (Op.hello hn) none, Event.extension "STARTTLS" tls]
    ++ (if tls then [Event.op Op.startTLS none] else [])

/-- The log of a successful authentication step. -/
def authed (a : Option SaslClient) : List Event :=
  match a with
  | none => []
  | some x => [Event.extension "AUTH" true, Event.op (Op.auth x) none]

/-- The log of lines 220-246 when they stop at `st`. -/
def Stop.tail (s r body : String) : Stop → List Event
  | .mail e => [Event.op (Op.mail s) (some e)]
  | .rcpt e => [Event.op (Op.mail s) none, Event.op (Op.rcpt r) (some e)]
  | .data e => [Event.op (Op.mail s) none, Event.op (Op.rcpt r) none, Event.op Op.data (some e)]
  | .write e => [Event.op (Op.mail s) none, Event.op (Op.rcpt r) none, Event.op Op.data none,
      Event.op (Op.write body) (some e)]
  | .dataClose e => [Event.op (Op.mail s) none, Event.op (Op.rcpt r) none, Event.op Op.data none,
      Event.op (Op.write body) none, Event.op Op.dataClose (some e)]
  | .quit rq => [Event.op (Op.mail s) none, Event.op (Op.rcpt r) none, Event.op Op.data none,
      Event.op (Op.write body) none, Event.op Op.dataClose none, Event.op Op.quit rq]
  | _ => []

/-- The log of the body of `sendEmail` when it stops at `st`. -/
def Stop.events (a : Option SaslClient) (s r body hn : String) (tls : Bool) (st : Stop) :
    List Event :=
  match st with
  | .hello e => [Event.op (Op.hello hn) (some e)]
  | .startTLS e =>
    [Event.op (Op.hello hn) none, Event.extension "STARTTLS" true, Event.op Op.startTLS (some e)]
  | .noAuth => secured hn tls ++ [Event.extension "AUTH" false]
  | .auth e => secured hn tls ++
      (match a with
       | none => []
       | some x => [Event.extension "AUTH" true, Event.op (Op.auth x) (some e)])
  | st => secured hn tls ++ authed a ++ st.tail s r body

/-- The value of `err` when the body of `sendEmail` stops at `st`. -/
def Stop.err : Stop → Option GoError
  | .hello e | .startTLS e | .auth e | .mail e | .rcpt e | .data e | .write e | .dataClose e =>
    some (GoError.lib e)
  | .noAuth => some errNoAuth
  | .quit rq => rq.map GoError.lib

/-- The stops that can occur for the given auth client and STARTTLS answer. -/
def Stop.valid (a : Option SaslClient) (tls : Bool) : Stop → Prop
  | .startTLS _ => tls = true
  | .noAuth | .auth _ => a ≠ none
  | _ => True

/-- The stops of lines 220-246. -/
def Stop.late : Stop → Prop
  | .mail _ | .rcpt _ | .data _ | .write _ | .dataClose _ | .quit _ => True
  | _ => False

/-- What the deferred function makes of `err` and of the answer `rc` of
`Close`. -/
def finish (err : Option GoError) (rc : Option LibError) : Outcome :=
  match err, rc with
  | some e, _ => Outcome.returned (some e)
  | none, none => Outcome.panicked
  | none, some r =>
    if r.msg = "use of closed network connection" then Outcome.returned none
    else Outcome.returned (some (GoError.lib r))

/-! ## Reading a log -/

/-- The error a logged call stands for when it is a failed protocol step:
a method other than the release `Close` that returned an error, or the
AUTH-capability check of line 209 answered with false (the error of line
211).  Any other call is no failure. -/
def stepError : Event → Option GoError
  | Event.op o (some e) => if o = Op.close then none else some (GoError.lib e)
  | Event.extension name false => if name = "AUTH" then some errNoAuth else none
  | _ => none

/-- The error of the first failed protocol step of a log, if there is one. -/
def firstStepError (evs : List Event) : Option GoError :=
  evs.findSome? stepError

/-- Whether the logged call is the release of the connection. -/
def Event.isClose : Event → Bool
  | Event.op Op.close _ => true
  | _ => false

/-- The protocol steps of a log in the order they were invoked, each with
the error it returned: the method calls other than the release `Close`.
Capability queries are look-ups on the client, not steps. -/
def steps : List Event → List (Op × Option LibError)
  | [] => []
  | Event.op o rerr :: rest => if o = Op.close then steps rest else (o, rerr) :: steps rest
  | _ :: rest => steps rest

/-- The sequence of protocol steps as the specification lists it: greet,
optional security upgrade, optional authenticate, set sender, set recipient,
open data channel, write message, finalize data channel, terminate. -/
def fullSequence (upgrade : Bool) (authClient : Option SaslClient)
    (clientHostname sender recipient body : String) : List Op :=
  [Op.hello clientHostname]
    ++ (if upgrade then [Op.startTLS] else [])
    ++ (match authClient with
        | none => []
        | some a => [Op.auth a])
    ++ [Op.mail sender, Op.rcpt recipient, Op.data, Op.write body, Op.dataClose, Op.quit]

/-- The dial that the flags `implicitTLS` and `insecure` ask for. -/
def connectionAttempt (host : String) (port : Int) (implicitTLS insecure : Bool) : Dial :=
  if implicitTLS then Dial.tlsDial (address host port) host insecure
  else Dial.smtpDial (address host port)

/-- The run made no call at all and returned the error `errors.New(msg)`. -/
def Rejected (msg : String) (run : Run) : Prop :=
  run.events = [] ∧ run.out = Outcome.returned (some (GoError.errorsNew msg))

/-- The first call of the run is the dial `d`, and if the run returns an
error made by the program itself, it is the one of line 211 and so not a
validation error. -/
def Attempted (d : Dial) (run : Run) : Prop :=
  (∃ rerr rest, run.events = Event.dial d rerr :: rest) ∧
  ∀ msg, run.out = Outcome.returned (some (GoError.errorsNew msg)) →
    msg = "smtp: server doesn't support AUTH"

/-- The message as the specification words it: the header lines MIME
version, Content-Type, From, To, Subject, each ended by CR LF, then an empty
line and the body text. -/
def wireFormat (sender recipient subject message : String) : String :=
  "MIME-version: 1.0;" ++ "\r\n"
    ++ "Content-Type: text/html; charset=\"UTF-8\";" ++ "\r\n"
    ++ "From: " ++ sender ++ "\r\n"
    ++ "To: " ++ recipient ++ "\r\n"
    ++ "Subject: " ++ subject ++ "\r\n"
    ++ "\r\n"
    ++ message

/-- The behaviour of the library's client that the deferred function of
`sendEmail` counts on: a `Quit` that succeeds has closed the connection, so a
`Close` invoked after it returns an error. -/
def closeFailsAfterQuit (c : Client) : Prop :=
  ∀ h, Event.op Op.quit none ∈ h → c.reply h Op.close ≠ none

/-! ## Concrete clients and networks -/

/-- The error a second `Close` of a TLS connection returns. -/
def errClosed : LibError := { msg := "use of closed network connection", id := 0 }

/-- A rejection of the sender by the server. -/
def errRejected : LibError := { msg := "550 sender rejected", id := 1 }

/-- A failure to release the connection. -/
def errReset : LibError := { msg := "connection reset by peer", id := 2 }

/-- A client whose answers do not depend on the earlier calls. -/
def scripted (reply : Op → Option LibError) (extension : String → Bool) : Client :=
  { reply := fun _ o => reply o, extension := fun _ name => extension name }

/-- Every method succeeds and every extension is advertised; `Close`
returns nil. -/
def clientAllNil : Client :=
  scripted (fun _ => none) (fun _ => true)

/-- Every protocol step succeeds and `Close` reports the connection as
already closed. -/
def clientClosed : Client :=
  scripted (fun o => if o = Op.close then some errClosed else none) (fun _ => true)

/-- Every protocol step succeeds and `Close` fails with another error. -/
def clientReset : Client :=
  scripted (fun o => if o = Op.close then some errReset else none) (fun _ => true)

/-- The server rejects the sender, and `Close` then fails as well. -/
def clientRejects : Client :=
  scripted (fun o => if o = Op.mail "a@x.com" then some errRejected
    else if o = Op.close then some errReset else none) (fun _ => true)

/-- A server that advertises STARTTLS but not AUTH. -/
def clientNoAuth : Client :=
  scripted (fun o => if o = Op.close then some errClosed else none) (fun name => name = "STARTTLS")

/-- The error `StartTLS(nil)` returns on a connection that is TLS already. -/
def errTLSConfig : LibError :=
  { msg := "tls: either ServerName or InsecureSkipVerify must be specified in the tls.Config",
    id := 3 }

/-- A server reached over implicit TLS that still advertises STARTTLS: the
greeting succeeds, `StartTLS` fails, and the release of the still open
connection succeeds. -/
def clientTLSAdvertising : Client :=
  scripted (fun o => if o = Op.startTLS then some errTLSConfig else none)
    (fun name => name = "STARTTLS")

/-- A network on which every dial reaches the client `c`. -/
def netTo (c : Client) : Network :=
  { tlsDial := fun _ _ _ => Except.ok c, smtpDial := fun _ => Except.ok c }

/-- Flags with every required field supplied and `--auth disable`. -/
def flagsDisable : Flags :=
  { Flags.defaults with
    host := "mail.example.com", port := 587, sender := "a@x.com", recipient := "b@y.com",
    auth := "disable" }

/-- Flags with every required field supplied and `--auth` omitted. -/
def flagsNoAuth : Flags :=
  { Flags.defaults with
    host := "mail.example.com", port := 587, sender := "a@x.com", recipient := "b@y.com" }

/-- Only `--help` given. -/
def flagsHelp : Flags :=
  { Flags.defaults with help := true }

/-! ## Lemmas on the shape of a session -/

theorem faithful_append (c : Client) (xs ys h : List Event) :
    faithful c h (xs ++ ys) ↔ faithful c h xs ∧ faithful c (h ++ xs) ys := by
  induction xs generalizing h with
  | nil => simp [faithful]
  | cons x xs ih =>
    cases x with
    | dial d e => simp [faithful]
    | op o e => simp [faithful, ih, and_assoc]
    | extension n b => simp [faithful, ih, and_assoc]

theorem sendEnvelopeAndData_shape (c : Client) (s r body : String) (h : List Event) :
    ∃ st : Stop, st.late ∧
      sendEnvelopeAndData c s r body h = (h ++ st.tail s r body, st.err) ∧
      faithful c h (st.tail s r body) := by
  unfold sendEnvelopeAndData
  simp only [Client.call]
  cases h1 : c.reply h (Op.mail s) with
  | some e => exact ⟨Stop.mail e, trivial, rfl, by simp [Stop.tail, faithful, h1]⟩
  | none =>
  simp only []
  cases h2 : c.reply (h ++ [Event.op (Op.mail s) none]) (Op.rcpt r) with
  | some e =>
    exact ⟨Stop.rcpt e, trivial, by simp [Stop.tail, Stop.err], by simp [Stop.tail, faithful, h1, h2]⟩
  | none =>
  simp only []
  cases h3 : c.reply (h ++ [Event.op (Op.mail s) none] ++ [Event.op (Op.rcpt r) none]) Op.data with
  | some e =>
    exact ⟨Stop.data e, trivial, by simp [Stop.tail, Stop.err],
      by simpa [Stop.tail, faithful, h1, h2] using h3⟩
  | none =>
  simp only []
  cases h4 : c.reply (h ++ [Event.op (Op.mail s) none] ++ [Event.op (Op.rcpt r) none]
      ++ [Event.op Op.data none]) (Op.write body) with
  | some e =>
    exact ⟨Stop.write e, trivial, by simp [Stop.tail, Stop.err],
      by simp only [List.append_assoc, List.singleton_append, List.cons_append, List.nil_append] at h3 h4
         simp [Stop.tail, faithful, h1, h2, h3, h4]⟩
  | none =>
  simp only []
  cases h5 : c.reply (h ++ [Event.op (Op.mail s) none] ++ [Event.op (Op.rcpt r) none]
      ++ [Event.op Op.data none] ++ [Event.op (Op.write body) none]) Op.dataClose with
  | some e =>
    exact ⟨Stop.dataClose e, trivial, by simp [Stop.tail, Stop.err],
      by simp only [List.append_assoc, List.singleton_append, List.cons_append, List.nil_append] at h3 h4 h5
         simp [Stop.tail, faithful, h1, h2, h3, h4, h5]⟩
  | none =>
  simp only []
  refine ⟨Stop.quit (c.reply (h ++ [Event.op (Op.mail s) none] ++ [Event.op (Op.rcpt r) none]
      ++ [Event.op Op.data none] ++ [Event.op (Op.write body) none]
      ++ [Event.op Op.dataClose none]) Op.quit), trivial, by simp [Stop.tail, Stop.err], ?_⟩
  simp only [List.append_assoc, List.singleton_append, List.cons_append, List.nil_append] at h3 h4 h5
  simp [Stop.tail, faithful, h1, h2, h3, h4, h5]

theorem Stop.events_late (a : Option SaslClient) (s r body hn : String) (tls : Bool) (st : Stop)
    (hl : st.late) : Stop.events a s r body hn tls st = secured hn tls ++ authed a ++ st.tail s r body := by
  cases st <;> first | rfl | exact absurd hl (by simp [Stop.late])

theorem Stop.valid_late (a : Option SaslClient) (tls : Bool) (st : Stop) (hl : st.late) :
    st.valid a tls := by
  cases st <;> trivial

theorem shape_late (c : Client) (a : Option SaslClient) (s r body hn : String) (tls : Bool)
    (hpre : faithful c [] (secured hn tls ++ authed a)) :
    ∃ st, Stop.valid a tls st ∧
      sendEnvelopeAndData c s r body (secured hn tls ++ authed a)
        = (Stop.events a s r body hn tls st, st.err) ∧
      faithful c [] (Stop.events a s r body hn tls st) := by
  obtain ⟨st, hl, he, hf⟩ := sendEnvelopeAndData_shape c s r body (secured hn tls ++ authed a)
  refine ⟨st, Stop.valid_late a tls st hl, ?_, ?_⟩
  · rw [he, Stop.events_late a s r body hn tls st hl]
  · rw [Stop.events_late a s r body hn tls st hl, faithful_append]
    exact ⟨hpre, by simpa using hf⟩

theorem sendEmailBody_shape (c : Client) (a : Option SaslClient) (s r sub m hn : String) :
    ∃ tls st, Stop.valid a tls st ∧
      sendEmailBody c a s r sub m hn
        = (Stop.events a s r (composeBody s r sub m) hn tls st, st.err) ∧
      faithful c [] (Stop.events a s r (composeBody s r sub m) hn tls st) := by
  unfold sendEmailBody upgradeSecurity authenticate
  simp only [Client.call, Client.query, List.nil_append]
  cases h1 : c.reply [] (Op.hello hn) with
  | some e => exact ⟨false, Stop.hello e, trivial, rfl, by simp [Stop.events, faithful, h1]⟩
  | none =>
  simp only [List.singleton_append]
  cases h2 : c.extension [Event.op (Op.hello hn) none] "STARTTLS" with
  | true =>
    simp only [List.cons_append, List.nil_append]
    cases h3 : c.reply [Event.op (Op.hello hn) none, Event.extension "STARTTLS" true] Op.startTLS with
    | some e =>
      exact ⟨true, Stop.startTLS e, rfl, rfl, by simp [Stop.events, faithful, h1, h2, h3]⟩
    | none =>
      simp only []
      cases a with
      | none =>
        simp only []
        have h := shape_late c none s r (composeBody s r sub m) hn true
          (by simp [secured, authed, faithful, h1, h2, h3])
        exact ⟨true, by simpa [secured, authed] using h⟩
      | some x =>
        simp only [List.cons_append, List.nil_append]
        cases h4 : c.extension [Event.op (Op.hello hn) none, Event.extension "STARTTLS" true,
            Event.op Op.startTLS none] "AUTH" with
        | false =>
          exact ⟨true, Stop.noAuth, by simp [Stop.valid], rfl,
            by simp [Stop.events, secured, faithful, h1, h2, h3, h4]⟩
        | true =>
          simp only []
          cases h5 : c.reply [Event.op (Op.hello hn) none, Event.extension "STARTTLS" true,
            Event.op Op.startTLS none, Event.extension "AUTH" true] (Op.auth x) with
          | some e =>
            exact ⟨true, Stop.auth e, by simp [Stop.valid], rfl,
              by simp [Stop.events, secured, faithful, h1, h2, h3, h4, h5]⟩
          | none =>
            simp only []
            have h := shape_late c (some x) s r (composeBody s r sub m) hn true
              (by simp [secured, authed, faithful, h1, h2, h3, h4, h5])
            exact ⟨true, by simpa [secured, authed] using h⟩
  | false =>
    simp only []
    cases a with
    | none =>
      simp only []
      have h := shape_late c none s r (composeBody s r sub m) hn false
        (by simp [secured, authed, faithful, h1, h2])
      exact ⟨false, by simpa [secured, authed] using h⟩
    | some x =>
      simp only [List.cons_append, List.nil_append]
      cases h4 : c.extension [Event.op (Op.hello hn) none, Event.extension "STARTTLS" false] "AUTH" with
      | false =>
        exact ⟨false, Stop.noAuth, by simp [Stop.valid], rfl,
          by simp [Stop.events, secured, faithful, h1, h2, h4]⟩
      | true =>
        simp only []
        cases h5 : c.reply [Event.op (Op.hello hn) none, Event.extension "STARTTLS" false,
          Event.extension "AUTH" true] (Op.auth x) with
        | some e =>
          exact ⟨false, Stop.auth e, by simp [Stop.valid], rfl,
            by simp [Stop.events, secured, faithful, h1, h2, h4, h5]⟩
        | none =>
          simp only []
          have h := shape_late c (some x) s r (composeBody s r sub m) hn false
            (by simp [secured, authed, faithful, h1, h2, h4, h5])
          exact ⟨false, by simpa [secured, authed] using h⟩


theorem deferredClose_eq (c : Client) (h : List Event) (err : Option GoError) :
    deferredClose c h err
      = (h ++ [Event.op Op.close (c.reply h Op.close)], finish err (c.reply h Op.close)) := by
  unfold deferredClose finish
  simp only [Client.call]
  cases err with
  | some e => rfl
  | none =>
    cases c.reply h Op.close with
    | none => rfl
    | some r =>
      simp only [GoError.Error]
      by_cases hm : r.msg = "use of closed network connection" <;> simp [hm]

theorem sendEmail_shape (c : Client) (a : Option SaslClient) (s r sub m hn method : String) :
    ∃ tls st rc, Stop.valid a tls st ∧
      sendEmail c a s r sub m hn method
        = { stdout := ["Sending email with auth method: " ++ method],
            events := Stop.events a s r (composeBody s r sub m) hn tls st ++ [Event.op Op.close rc],
            out := finish st.err rc } ∧
      faithful c [] (Stop.events a s r (composeBody s r sub m) hn tls st ++ [Event.op Op.close rc]) := by
  obtain ⟨tls, st, hv, he, hf⟩ := sendEmailBody_shape c a s r sub m hn
  refine ⟨tls, st, c.reply (Stop.events a s r (composeBody s r sub m) hn tls st) Op.close, hv, ?_, ?_⟩
  · simp only [sendEmail, he, deferredClose_eq]
  · rw [faithful_append]
    exact ⟨hf, by simp [faithful]⟩

/-- First part of C4, for a session whose greeting and security step succeed. -/
theorem authErr_iff (c : Client) (a : Option SaslClient)
    (s r sub m hn method : String)
    (hgreet : c.reply [] (Op.hello hn) = none)
    (hsec : c.extension [Event.op (Op.hello hn) none] "STARTTLS" = true →
      c.reply [Event.op (Op.hello hn) none, Event.extension "STARTTLS" true] Op.startTLS = none) :
    ((sendEmail c a s r sub m hn method).out = Outcome.returned (some errNoAuth) ↔
      (a ≠ none ∧
        c.extension (secured hn (c.extension [Event.op (Op.hello hn) none] "STARTTLS")) "AUTH"
          = false)) := by
  obtain ⟨tls, st, rc, hv, he, hf⟩ := sendEmail_shape c a s r sub m hn method
  rw [he]
  rw [faithful_append] at hf
  replace hf := hf.1
  clear he
  cases st with
  | quit rq =>
    cases rc <;> cases rq <;> cases tls <;> cases a <;>
      simp_all [Stop.events, Stop.err, Stop.valid, secured, authed, Stop.tail, faithful, finish,
        errNoAuth] <;>
      (split <;> simp)
  | _ =>
    cases tls <;> cases a <;>
      simp_all [Stop.events, Stop.err, Stop.valid, secured, authed, Stop.tail, faithful, finish,
        errNoAuth]

/-- Second part of C4: what was invoked when the error of line 211 is returned. -/
theorem authErr_ops (c : Client) (a : Option SaslClient) (s r sub m hn method : String) :
    ((sendEmail c a s r sub m hn method).out = Outcome.returned (some errNoAuth) →
      ∀ o rerr, Event.op o rerr ∈ (sendEmail c a s r sub m hn method).events →
        o = Op.hello hn ∨ o = Op.startTLS ∨ o = Op.close) := by
  obtain ⟨tls, st, rc, hv, he, hf⟩ := sendEmail_shape c a s r sub m hn method
  rw [he]
  clear he hf
  cases st with
  | quit rq =>
    cases rc <;> cases rq <;> simp [Stop.err, finish, errNoAuth]
    split <;> simp
  | noAuth =>
    cases tls <;>
      simp [Stop.events, secured, Stop.tail] <;>
      (intro _ o rerr; tauto)
  | _ => simp [Stop.err, finish, errNoAuth]

/-- Third part of C4: with a nil auth client nothing of lines 208-218 happens. -/
theorem nil_authClient_skips_auth (c : Client) (s r sub m hn method : String) :
    (∀ ok, Event.extension "AUTH" ok ∉ (sendEmail c none s r sub m hn method).events) ∧
    (∀ x rerr, Event.op (Op.auth x) rerr ∉ (sendEmail c none s r sub m hn method).events) ∧
    (sendEmail c none s r sub m hn method).out ≠ Outcome.returned (some errNoAuth) := by
  obtain ⟨tls, st, rc, hv, he, hf⟩ := sendEmail_shape c none s r sub m hn method
  rw [he]
  clear he hf
  cases st with
  | quit rq =>
    cases rc <;> cases rq <;> cases tls <;>
      simp [Stop.events, Stop.err, secured, authed, Stop.tail, finish, errNoAuth] <;>
      (split <;> simp)
  | _ =>
    cases tls <;>
      simp_all [Stop.events, Stop.err, Stop.valid, secured, authed, Stop.tail, finish, errNoAuth]


/-- First part of C8: the steps invoked are an initial part of the full sequence. -/
theorem steps_initial (c : Client) (a : Option SaslClient) (s r sub m hn method : String) :
    (steps (sendEmail c a s r sub m hn method).events).map Prod.fst
      <+: fullSequence (decide (Event.extension "STARTTLS" true
            ∈ (sendEmail c a s r sub m hn method).events)) a hn s r (composeBody s r sub m) := by
  obtain ⟨tls, st, rc, hv, he, hf⟩ := sendEmail_shape c a s r sub m hn method
  rw [he]
  clear he hf
  cases st <;> cases tls <;> cases a <;>
    simp_all [Stop.events, Stop.valid, secured, authed, Stop.tail, steps, fullSequence,
      List.prefix_cons_inj, List.cons_prefix_cons]

/-- Second part of C8: only the last step invoked can have failed, and a run
without a failed step invokes the full sequence. -/
theorem steps_cut (c : Client) (a : Option SaslClient) (s r sub m hn method : String) :
    (∀ x ∈ (steps (sendEmail c a s r sub m hn method).events).dropLast, x.2 = none) ∧
    (firstStepError (sendEmail c a s r sub m hn method).events = none →
      (steps (sendEmail c a s r sub m hn method).events).map Prod.fst
        = fullSequence (decide (Event.extension "STARTTLS" true
            ∈ (sendEmail c a s r sub m hn method).events)) a hn s r (composeBody s r sub m)) := by
  obtain ⟨tls, st, rc, hv, he, hf⟩ := sendEmail_shape c a s r sub m hn method
  rw [he]
  clear he hf
  cases st with
  | quit rq =>
    cases rq <;> cases tls <;> cases a <;>
    simp_all [Stop.events, Stop.valid, secured, authed, Stop.tail, steps, fullSequence,
      firstStepError, stepError, List.findSome?, List.dropLast]
  | _ =>
    cases tls <;> cases a <;>
    simp_all [Stop.events, Stop.valid, secured, authed, Stop.tail, steps, fullSequence,
      firstStepError, stepError, List.findSome?, List.dropLast]

/-- Third part of C8: what an invoked step tells about the earlier ones. -/
theorem steps_preconditions (c : Client) (a : Option SaslClient) (s r sub m hn method : String) :
    (∀ rerr, Event.op (Op.rcpt r) rerr ∈ (sendEmail c a s r sub m hn method).events →
      Event.op (Op.mail s) none ∈ (sendEmail c a s r sub m hn method).events) ∧
    (∀ rerr, Event.op Op.data rerr ∈ (sendEmail c a s r sub m hn method).events →
      Event.op (Op.mail s) none ∈ (sendEmail c a s r sub m hn method).events ∧
      Event.op (Op.rcpt r) none ∈ (sendEmail c a s r sub m hn method).events) ∧
    (∀ rerr, Event.op Op.quit rerr ∈ (sendEmail c a s r sub m hn method).events →
      Event.op Op.dataClose none ∈ (sendEmail c a s r sub m hn method).events) := by
  obtain ⟨tls, st, rc, hv, he, hf⟩ := sendEmail_shape c a s r sub m hn method
  rw [he]
  clear he hf
  cases st <;> cases tls <;> cases a <;>
    simp_all [Stop.events, Stop.valid, secured, authed, Stop.tail]


/-- The only error of its own making that `sendEmail` returns is the one of line 211. -/
theorem sendEmail_out_errorsNew (c : Client) (a : Option SaslClient)
    (s r sub m hn method msg : String)
    (h : (sendEmail c a s r sub m hn method).out = Outcome.returned (some (GoError.errorsNew msg))) :
    msg = "smtp: server doesn't support AUTH" := by
  obtain ⟨tls, st, rc, hv, he, hf⟩ := sendEmail_shape c a s r sub m hn method
  rw [he] at h
  clear he hf
  cases st with
  | quit rq =>
    cases rc <;> cases rq <;> simp [Stop.err, finish] at h
    split at h <;> simp at h
  | noAuth => simpa [Stop.err, finish, errNoAuth, eq_comm] using h
  | _ => simp [Stop.err, finish] at h

/-- An entry point that has passed its validation dials first. -/
theorem attempted_of_connect (net : Network) (host : String) (port : Int)
    (implicitTLS insecure : Bool) (k : Client → Run)
    (hk : ∀ c msg, (k c).out = Outcome.returned (some (GoError.errorsNew msg)) →
      msg = "smtp: server doesn't support AUTH") :
    Attempted (connectionAttempt host port implicitTLS insecure)
      (match getSmtpClient net host port implicitTLS insecure with
       | (ev, Except.error err) => Run.after ev (Run.fail (GoError.lib err))
       | (ev, Except.ok smtpClient) => Run.after ev (k smtpClient)) := by
  unfold Attempted getSmtpClient newImplicitTLSClient newExplicitStartTLSClient connectionAttempt
  cases implicitTLS with
  | true =>
    simp only [if_true]
    cases h : net.tlsDial (address host port) host insecure with
    | error e => simp [Run.after, Run.fail]
    | ok c => simpa [Run.after] using hk c
  | false =>
    simp only [Bool.false_eq_true, if_false]
    cases h : net.smtpDial (address host port) with
    | error e => simp [Run.after, Run.fail]
    | ok c => simpa [Run.after] using hk c


/-- What lines 202-206 do after a successful greeting to a server that
advertises STARTTLS: `StartTLS` is invoked, and when it fails its error is
returned and the sender is never set. -/
theorem startTLS_issued (c : Client) (a : Option SaslClient) (s r sub m hn method : String)
    (hgreet : c.reply [] (Op.hello hn) = none)
    (hadv : c.extension [Event.op (Op.hello hn) none] "STARTTLS" = true) :
    Event.op Op.startTLS
        (c.reply [Event.op (Op.hello hn) none, Event.extension "STARTTLS" true] Op.startTLS)
      ∈ (sendEmail c a s r sub m hn method).events ∧
    (∀ e, c.reply [Event.op (Op.hello hn) none, Event.extension "STARTTLS" true] Op.startTLS
        = some e →
      (sendEmail c a s r sub m hn method).out = Outcome.returned (some (GoError.lib e)) ∧
      ∀ rerr, Event.op (Op.mail s) rerr ∉ (sendEmail c a s r sub m hn method).events) := by
  obtain ⟨tls, st, rc, hv, he, hf⟩ := sendEmail_shape c a s r sub m hn method
  rw [he]
  rw [faithful_append] at hf
  replace hf := hf.1
  clear he
  cases st <;> cases tls <;> cases a <;>
    simp_all [Stop.events, Stop.err, Stop.valid, secured, authed, Stop.tail, faithful, finish]

/-- The deferred function faults exactly when `Quit` succeeded and `Close`
returned nil. -/
theorem panicked_iff (c : Client) (a : Option SaslClient) (s r sub m hn method : String) :
    (sendEmail c a s r sub m hn method).out = Outcome.panicked ↔
      (Event.op Op.quit none ∈ (sendEmail c a s r sub m hn method).events ∧
        Event.op Op.close none ∈ (sendEmail c a s r sub m hn method).events) := by
  obtain ⟨tls, st, rc, hv, he, hf⟩ := sendEmail_shape c a s r sub m hn method
  rw [he]
  clear he hf
  cases rc <;> cases st with
  | quit rq =>
    cases rq <;> cases tls <;> cases a <;>
      simp [Stop.events, Stop.err, secured, authed, Stop.tail, finish] <;>
      (split <;> simp)
  | _ =>
    cases tls <;> cases a <;>
      simp [Stop.events, Stop.err, secured, authed, Stop.tail, finish]

/-- The answer of `Close` that the log records is the client's answer to the
calls logged before it. -/
theorem close_reply_logged (c : Client) (a : Option SaslClient) (s r sub m hn method : String) :
    ∃ h, (sendEmail c a s r sub m hn method).events = h ++ [Event.op Op.close (c.reply h Op.close)] ∧
      ∀ rerr, Event.op Op.close rerr ∉ h := by
  obtain ⟨tls, st, rc, hv, he, hf⟩ := sendEmail_shape c a s r sub m hn method
  rw [he]
  rw [faithful_append] at hf
  refine ⟨Stop.events a s r (composeBody s r sub m) hn tls st, ?_, ?_⟩
  · have h2 := hf.2
    simp [faithful] at h2
    rw [h2]
  · clear hf he
    cases st <;> cases tls <;> cases a <;>
      simp [Stop.events, secured, authed, Stop.tail]

/-- What lines 202-206 do in general: `StartTLS` is invoked exactly when the
greeting succeeded and the server then advertises STARTTLS; when it is not
advertised the run goes on with the AUTH query, or with `Mail` when the auth
client is nil. -/
theorem startTLS_iff_advertised (c : Client) (a : Option SaslClient)
    (s r sub m hn method : String) :
    ((∃ rerr, Event.op Op.startTLS rerr ∈ (sendEmail c a s r sub m hn method).events) ↔
      (c.reply [] (Op.hello hn) = none ∧
        c.extension [Event.op (Op.hello hn) none] "STARTTLS" = true)) ∧
    (c.reply [] (Op.hello hn) = none →
      c.extension [Event.op (Op.hello hn) none] "STARTTLS" = false →
      ∃ next rest,
        (sendEmail c a s r sub m hn method).events
          = Event.op (Op.hello hn) none :: Event.extension "STARTTLS" false :: next :: rest ∧
        (a = none → ∃ rerr, next = Event.op (Op.mail s) rerr) ∧
        (a ≠ none → ∃ ok, next = Event.extension "AUTH" ok)) := by
  obtain ⟨tls, st, rc, hv, he, hf⟩ := sendEmail_shape c a s r sub m hn method
  rw [he]
  cases st <;> cases tls <;> cases a <;>
    simp_all [Stop.events, Stop.tail, Stop.valid, secured, authed, faithful]

/-! ## The claims -/

/-- C1: in every run of `sendEmail` in which a protocol step fails (greet,
security upgrade, the AUTH-capability check, authenticate, set sender, set
recipient, open data channel, write message, finalize data channel or Quit),
`sendEmail` returns exactly the error of the first failing step, whatever
the deferred `Close` returns. -/
theorem sendEmail_returns_first_step_error (c : Client) (a : Option SaslClient)
    (s r sub m hn method : String) (e : GoError)
    (hfail : firstStepError (sendEmail c a s r sub m hn method).events = some e) :
    (sendEmail c a s r sub m hn method).out = Outcome.returned (some e) := by
  obtain ⟨tls, st, rc, hv, he, -⟩ := sendEmail_shape c a s r sub m hn method
  rw [he] at hfail ⊢
  cases rc <;> cases st with
  | quit rq =>
    cases rq <;> cases tls <;> cases a <;>
      simp_all [Stop.events, Stop.tail, Stop.err, Stop.valid, secured, authed, firstStepError,
        stepError, finish, List.findSome?]
  | _ =>
    cases tls <;> cases a <;>
      simp_all [Stop.events, Stop.tail, Stop.err, Stop.valid, secured, authed, firstStepError,
        stepError, finish, List.findSome?]

/-- Witness for C1: the server rejects the sender and `Close` then fails
with another error; the sender's rejection is what `sendEmail` returns. -/
theorem sendEmail_returns_first_step_error_witness :
    firstStepError
        (sendEmail clientRejects none "a@x.com" "b@y.com" "Hi" "Hello" "localhost" AuthDisable).events
      = some (GoError.lib errRejected) ∧
    Event.op Op.close (some errReset)
      ∈ (sendEmail clientRejects none "a@x.com" "b@y.com" "Hi" "Hello" "localhost" AuthDisable).events ∧
    (sendEmail clientRejects none "a@x.com" "b@y.com" "Hi" "Hello" "localhost" AuthDisable).out
      = Outcome.returned (some (GoError.lib errRejected)) :=
  ⟨by decide, by decide,
    sendEmail_returns_first_step_error clientRejects none "a@x.com" "b@y.com" "Hi" "Hello"
      "localhost" AuthDisable (GoError.lib errRejected) (by decide)⟩

/-- C2: in every run of `sendEmail` in which no protocol step fails, so
that every step through Quit succeeded, and in which the deferred `Close`
returns an error `r`: the run did reach a successful Quit, and `sendEmail`
reports success when the message of `r` is exactly "use of closed network
connection" and returns `r` itself otherwise. -/
theorem sendEmail_close_error_after_success (c : Client) (a : Option SaslClient)
    (s r sub m hn method : String) (rerr : LibError)
    (hok : firstStepError (sendEmail c a s r sub m hn method).events = none)
    (hclose : Event.op Op.close (some rerr) ∈ (sendEmail c a s r sub m hn method).events) :
    Event.op Op.quit none ∈ (sendEmail c a s r sub m hn method).events ∧
    (rerr.msg = "use of closed network connection" →
      (sendEmail c a s r sub m hn method).out = Outcome.returned none) ∧
    (rerr.msg ≠ "use of closed network connection" →
      (sendEmail c a s r sub m hn method).out = Outcome.returned (some (GoError.lib rerr))) := by
  obtain ⟨tls, st, rc, hv, he, -⟩ := sendEmail_shape c a s r sub m hn method
  rw [he] at hok hclose ⊢
  cases rc <;> cases st with
  | quit rq =>
    cases rq <;> cases tls <;> cases a <;>
      simp_all [Stop.events, Stop.tail, Stop.err, Stop.valid, secured, authed, firstStepError,
        stepError, finish, List.findSome?]
  | _ =>
    cases tls <;> cases a <;>
      simp_all [Stop.events, Stop.tail, Stop.err, Stop.valid, secured, authed, firstStepError,
        stepError, finish, List.findSome?]

/-- Witness for C2: every step succeeds; when `Close` reports the connection
as already closed the run is a success, and when `Close` fails with another
error that error is returned. -/
theorem sendEmail_close_error_after_success_witness :
    (firstStepError
        (sendEmail clientClosed none "a@x.com" "b@y.com" "Hi" "Hello" "localhost" AuthDisable).events
      = none ∧
    Event.op Op.close (some errClosed)
      ∈ (sendEmail clientClosed none "a@x.com" "b@y.com" "Hi" "Hello" "localhost" AuthDisable).events ∧
    (sendEmail clientClosed none "a@x.com" "b@y.com" "Hi" "Hello" "localhost" AuthDisable).out
      = Outcome.returned none) ∧
    (firstStepError
        (sendEmail clientReset none "a@x.com" "b@y.com" "Hi" "Hello" "localhost" AuthDisable).events
      = none ∧
    Event.op Op.close (some errReset)
      ∈ (sendEmail clientReset none "a@x.com" "b@y.com" "Hi" "Hello" "localhost" AuthDisable).events ∧
    (sendEmail clientReset none "a@x.com" "b@y.com" "Hi" "Hello" "localhost" AuthDisable).out
      = Outcome.returned (some (GoError.lib errReset))) :=
  ⟨⟨by decide, by decide,
    (sendEmail_close_error_after_success clientClosed none "a@x.com" "b@y.com" "Hi" "Hello"
      "localhost" AuthDisable errClosed (by decide) (by decide)).2.1 (by decide)⟩,
   ⟨by decide, by decide,
    (sendEmail_close_error_after_success clientReset none "a@x.com" "b@y.com" "Hi" "Hello"
      "localhost" AuthDisable errReset (by decide) (by decide)).2.2 (by decide)⟩⟩

/-- C7: every run of `sendEmail` invokes `Close` exactly once, and that call
is the last one of the run. -/
theorem sendEmail_closes_exactly_once_last (c : Client) (a : Option SaslClient)
    (s r sub m hn method : String) :
    ((sendEmail c a s r sub m hn method).events.filter Event.isClose).length = 1 ∧
    ∃ rerr, (sendEmail c a s r sub m hn method).events.getLast? = some (Event.op Op.close rerr) := by
  obtain ⟨tls, st, rc, hv, he, -⟩ := sendEmail_shape c a s r sub m hn method
  rw [he]
  refine ⟨?_, rc, by simp⟩
  cases st <;> cases tls <;> cases a <;>
    simp [Stop.events, Stop.tail, secured, authed, Event.isClose, List.filter]

/-- C4: for every session whose greeting and security step succeed,
`sendEmail` returns the error of line 211, "smtp: server doesn't support
AUTH", if and only if an auth client is configured and the server does not
advertise AUTH.  In that case the only methods invoked are `Hello`,
`StartTLS` and the release, so that authenticate, set sender, set recipient,
open data channel and Quit are never invoked.  With a nil auth client the
AUTH capability is never queried, authenticate is never invoked and the
error of line 211 is never returned.  (The error is the value line 211
makes, as distinct from an error handed back by the library.) -/
theorem sendEmail_auth_unsupported_iff (c : Client) (a : Option SaslClient)
    (s r sub m hn method : String)
    (hgreet : c.reply [] (Op.hello hn) = none)
    (hsec : c.extension [Event.op (Op.hello hn) none] "STARTTLS" = true →
      c.reply [Event.op (Op.hello hn) none, Event.extension "STARTTLS" true] Op.startTLS = none) :
    ((sendEmail c a s r sub m hn method).out = Outcome.returned (some errNoAuth) ↔
      (a ≠ none ∧
        c.extension (secured hn (c.extension [Event.op (Op.hello hn) none] "STARTTLS")) "AUTH"
          = false)) ∧
    ((sendEmail c a s r sub m hn method).out = Outcome.returned (some errNoAuth) →
      ∀ o rerr, Event.op o rerr ∈ (sendEmail c a s r sub m hn method).events →
        o = Op.hello hn ∨ o = Op.startTLS ∨ o = Op.close) ∧
    (a = none →
      (∀ ok, Event.extension "AUTH" ok ∉ (sendEmail c a s r sub m hn method).events) ∧
      (∀ x rerr, Event.op (Op.auth x) rerr ∉ (sendEmail c a s r sub m hn method).events) ∧
      (sendEmail c a s r sub m hn method).out ≠ Outcome.returned (some errNoAuth)) := by
  refine ⟨authErr_iff c a s r sub m hn method hgreet hsec, authErr_ops c a s r sub m hn method, ?_⟩
  intro ha
  subst ha
  exact nil_authClient_skips_auth c s r sub m hn method

/-- Witness for C4: plain auth against a server that advertises STARTTLS but
not AUTH; the run fails with the error of line 211 after greeting and
security upgrade, and nothing else is invoked but the release. -/
theorem sendEmail_auth_unsupported_iff_witness :
    (sendEmail clientNoAuth (some (SaslClient.plain "" "user" "secret")) "a@x.com" "b@y.com"
        "Hi" "Hello" "localhost" AuthPlain).out = Outcome.returned (some errNoAuth) ∧
    (sendEmail clientNoAuth (some (SaslClient.plain "" "user" "secret")) "a@x.com" "b@y.com"
        "Hi" "Hello" "localhost" AuthPlain).events
      = [Event.op (Op.hello "localhost") none, Event.extension "STARTTLS" true,
          Event.op Op.startTLS none, Event.extension "AUTH" false,
          Event.op Op.close (some errClosed)] :=
  ⟨(sendEmail_auth_unsupported_iff clientNoAuth (some (SaslClient.plain "" "user" "secret"))
      "a@x.com" "b@y.com" "Hi" "Hello" "localhost" AuthPlain (by decide) (by decide)).1.2
      ⟨by decide, by decide⟩,
    by decide⟩

/-- C8: in every run of `sendEmail` the protocol steps invoked before the
release are, in order, an initial part of the sequence greet, security
upgrade (when STARTTLS was advertised), authenticate (when an auth client is
configured), set sender, set recipient, open data channel, write message,
finalize data channel, Quit.  No step is invoked after a failed one, and a
run in which no step fails (the AUTH-capability check counted as a step)
invokes the whole sequence.  So set recipient is invoked only after set
sender succeeded, the data channel is opened only after both succeeded, and
Quit is invoked only after the data channel was finalized successfully. -/
theorem sendEmail_steps_in_order (c : Client) (a : Option SaslClient)
    (s r sub m hn method : String) :
    ((steps (sendEmail c a s r sub m hn method).events).map Prod.fst
      <+: fullSequence (decide (Event.extension "STARTTLS" true
            ∈ (sendEmail c a s r sub m hn method).events)) a hn s r (composeBody s r sub m)) ∧
    (∀ x ∈ (steps (sendEmail c a s r sub m hn method).events).dropLast, x.2 = none) ∧
    (firstStepError (sendEmail c a s r sub m hn method).events = none →
      (steps (sendEmail c a s r sub m hn method).events).map Prod.fst
        = fullSequence (decide (Event.extension "STARTTLS" true
            ∈ (sendEmail c a s r sub m hn method).events)) a hn s r (composeBody s r sub m)) ∧
    (∀ rerr, Event.op (Op.rcpt r) rerr ∈ (sendEmail c a s r sub m hn method).events →
      Event.op (Op.mail s) none ∈ (sendEmail c a s r sub m hn method).events) ∧
    (∀ rerr, Event.op Op.data rerr ∈ (sendEmail c a s r sub m hn method).events →
      Event.op (Op.mail s) none ∈ (sendEmail c a s r sub m hn method).events ∧
      Event.op (Op.rcpt r) none ∈ (sendEmail c a s r sub m hn method).events) ∧
    (∀ rerr, Event.op Op.quit rerr ∈ (sendEmail c a s r sub m hn method).events →
      Event.op Op.dataClose none ∈ (sendEmail c a s r sub m hn method).events) :=
  ⟨steps_initial c a s r sub m hn method, (steps_cut c a s r sub m hn method).1,
    (steps_cut c a s r sub m hn method).2, steps_preconditions c a s r sub m hn method⟩

/-- C5: `sendEmailPlainAuth` and `sendEmailLoginAuth` with an empty username
or an empty password, and `sendEmailOauthBearerAuth` with an empty username
or an empty token, return their validation error without having made any
call: no dial and no method of the client.  When the required fields are all
non-empty, and always for the anonymous, external and disable entry points,
the first call is the dial of `getSmtpClient`, and an error returned later is
never a validation error. -/
theorem validation_precedes_connection (net : Network) (host : String) (port : Int)
    (identity username password token trace sender recipient subject message clientHostname : String)
    (implicitTLS insecure : Bool) :
    ((username = "" ∨ password = "") →
      Rejected "username and password must not be empty for auth plain"
        (sendEmailPlainAuth net host port identity username password sender recipient subject
          message clientHostname implicitTLS insecure)) ∧
    ((username = "" ∨ password = "") →
      Rejected "username and password must not be empty for auth login"
        (sendEmailLoginAuth net host port username password sender recipient subject
          message clientHostname implicitTLS insecure)) ∧
    ((username = "" ∨ token = "") →
      Rejected "username and token must not be empty for auth oauthbearer"
        (sendEmailOauthBearerAuth net host port username token sender recipient subject
          message clientHostname implicitTLS insecure)) ∧
    ((username ≠ "" ∧ password ≠ "") →
      Attempted (connectionAttempt host port implicitTLS insecure)
        (sendEmailPlainAuth net host port identity username password sender recipient subject
          message clientHostname implicitTLS insecure)) ∧
    ((username ≠ "" ∧ password ≠ "") →
      Attempted (connectionAttempt host port implicitTLS insecure)
        (sendEmailLoginAuth net host port username password sender recipient subject
          message clientHostname implicitTLS insecure)) ∧
    ((username ≠ "" ∧ token ≠ "") →
      Attempted (connectionAttempt host port implicitTLS insecure)
        (sendEmailOauthBearerAuth net host port username token sender recipient subject
          message clientHostname implicitTLS insecure)) ∧
    Attempted (connectionAttempt host port implicitTLS insecure)
      (sendEmailAnonymousAuth net host port trace sender recipient subject
          message clientHostname implicitTLS insecure) ∧
    Attempted (connectionAttempt host port implicitTLS insecure)
      (sendEmailExternalAuth net host port identity sender recipient subject
          message clientHostname implicitTLS insecure) ∧
    Attempted (connectionAttempt host port implicitTLS insecure)
      (sendEmailDisableAuth net host port sender recipient subject
          message clientHostname implicitTLS insecure) := by
  refine ⟨?_, ?_, ?_, ?_, ?_, ?_, ?_, ?_, ?_⟩
  · intro h
    simp [sendEmailPlainAuth, h, Rejected, Run.fail, AuthPlain]
  · intro h
    simp [sendEmailLoginAuth, h, Rejected, Run.fail, AuthLogin]
  · intro h
    simp [sendEmailOauthBearerAuth, h, Rejected, Run.fail, AuthOauthBearer]
  · intro h
    have h' : ¬ (username = "" ∨ password = "") := by tauto
    simp only [sendEmailPlainAuth, h', if_false]
    exact attempted_of_connect net host port implicitTLS insecure _
      (fun c msg => sendEmail_out_errorsNew c _ _ _ _ _ _ _ msg)
  · intro h
    have h' : ¬ (username = "" ∨ password = "") := by tauto
    simp only [sendEmailLoginAuth, h', if_false]
    exact attempted_of_connect net host port implicitTLS insecure _
      (fun c msg => sendEmail_out_errorsNew c _ _ _ _ _ _ _ msg)
  · intro h
    have h' : ¬ (username = "" ∨ token = "") := by tauto
    simp only [sendEmailOauthBearerAuth, h', if_false]
    exact attempted_of_connect net host port implicitTLS insecure _
      (fun c msg => sendEmail_out_errorsNew c _ _ _ _ _ _ _ msg)
  · simp only [sendEmailAnonymousAuth]
    exact attempted_of_connect net host port implicitTLS insecure _
      (fun c msg => sendEmail_out_errorsNew c _ _ _ _ _ _ _ msg)
  · simp only [sendEmailExternalAuth]
    exact attempted_of_connect net host port implicitTLS insecure _
      (fun c msg => sendEmail_out_errorsNew c _ _ _ _ _ _ _ msg)
  · simp only [sendEmailDisableAuth]
    exact attempted_of_connect net host port implicitTLS insecure _
      (fun c msg => sendEmail_out_errorsNew c _ _ _ _ _ _ _ msg)

/-- Witness for C5: plain auth with an empty password makes no call, and
with a password it dials. -/
theorem validation_precedes_connection_witness :
    Rejected "username and password must not be empty for auth plain"
      (sendEmailPlainAuth (netTo clientClosed) "mail.example.com" 587 "" "user" "" "a@x.com"
        "b@y.com" "Hi" "Hello" "localhost" false false) ∧
    Attempted (connectionAttempt "mail.example.com" 587 false false)
      (sendEmailPlainAuth (netTo clientClosed) "mail.example.com" 587 "" "user" "secret" "a@x.com"
        "b@y.com" "Hi" "Hello" "localhost" false false) :=
  ⟨(validation_precedes_connection (netTo clientClosed) "mail.example.com" 587 "" "user" "" "" ""
      "a@x.com" "b@y.com" "Hi" "Hello" "localhost" false false).1 (Or.inr rfl),
   (validation_precedes_connection (netTo clientClosed) "mail.example.com" 587 "" "user" "secret"
      "" "" "a@x.com" "b@y.com" "Hi" "Hello" "localhost" false false).2.2.2.1
      ⟨by decide, by decide⟩⟩


/-- C6, what the code does: for every sender, recipient, subject and message
the composed message ends its first header line, MIME-version, with a bare
LF (the character at index 18) where the specified format has CR LF, so the
two differ.  Apart from that, and from a final CR LF after the body text, the
composed message is the specified one, with the four values verbatim. -/
theorem composeBody_mime_line_ends_with_bare_lf (s r sub m : String) :
    (composeBody s r sub m).data.get? 18 = some '\n' ∧
    (wireFormat s r sub m).data.get? 18 = some '\r' ∧
    composeBody s r sub m ≠ wireFormat s r sub m ∧
    composeBody s r sub m
      = "MIME-version: 1.0;" ++ "\n"
        ++ ("Content-Type: text/html; charset=\"UTF-8\";" ++ "\r\n"
          ++ "From: " ++ s ++ "\r\n" ++ "To: " ++ r ++ "\r\n" ++ "Subject: " ++ sub ++ "\r\n"
          ++ "\r\n" ++ m ++ "\r\n") ∧
    wireFormat s r sub m ++ "\r\n"
      = "MIME-version: 1.0;" ++ "\r\n"
        ++ ("Content-Type: text/html; charset=\"UTF-8\";" ++ "\r\n"
          ++ "From: " ++ s ++ "\r\n" ++ "To: " ++ r ++ "\r\n" ++ "Subject: " ++ sub ++ "\r\n"
          ++ "\r\n" ++ m ++ "\r\n") := by
  have h1 : (composeBody s r sub m).data.get? 18 = some '\n' := by
    simp [composeBody, String.data_append]
  have h2 : (wireFormat s r sub m).data.get? 18 = some '\r' := by
    simp [wireFormat, String.data_append]
  refine ⟨h1, h2, ?_, ?_, ?_⟩
  · intro h
    rw [h, h2] at h1
    exact absurd h1 (by decide)
  · simp only [composeBody, String.append_assoc]
    rfl
  · simp only [wireFormat, String.append_assoc]


/-- C9 as stated fails: with every required field supplied and `--auth`
omitted the program logs "Unsupported auth method: " and ends with status 1,
but prints nothing on standard output, so no usage text; and with `--help`
and no host it prints the usage and ends with status 0. -/
theorem unsupported_auth_prints_no_usage :
    (main (netTo clientClosed) flagsNoAuth).stdout = [] ∧
    (main (netTo clientClosed) flagsNoAuth).stderr = ["Unsupported auth method: "] ∧
    (main (netTo clientClosed) flagsNoAuth).status = 1 ∧
    flagsHelp.host = "" ∧
    (main (netTo clientClosed) flagsHelp).stdout = printUsage ∧
    (main (netTo clientClosed) flagsHelp).status = 0 := by
  refine ⟨by decide, by decide, by decide, by decide, by decide, by decide⟩

/-- C3, what the code does on an implicit-TLS session: when `tls.Dial`
succeeds, the greeting succeeds and the server advertises STARTTLS,
`sendEmailDisableAuth` with `implicitTLS = true` still invokes `StartTLS`
on the connection that is TLS already; and when that call fails its error
is what the run returns, and the sender is never set. -/
theorem implicit_tls_session_invokes_startTLS (net : Network) (c : Client) (host : String)
    (port : Int) (s r sub m hn : String) (insecure : Bool)
    (hdial : net.tlsDial (address host port) host insecure = Except.ok c)
    (hgreet : c.reply [] (Op.hello hn) = none)
    (hadv : c.extension [Event.op (Op.hello hn) none] "STARTTLS" = true) :
    Event.dial (Dial.tlsDial (address host port) host insecure) none
      ∈ (sendEmailDisableAuth net host port s r sub m hn true insecure).events ∧
    Event.op Op.startTLS
        (c.reply [Event.op (Op.hello hn) none, Event.extension "STARTTLS" true] Op.startTLS)
      ∈ (sendEmailDisableAuth net host port s r sub m hn true insecure).events ∧
    (∀ e, c.reply [Event.op (Op.hello hn) none, Event.extension "STARTTLS" true] Op.startTLS
        = some e →
      (sendEmailDisableAuth net host port s r sub m hn true insecure).out
        = Outcome.returned (some (GoError.lib e)) ∧
      ∀ rerr, Event.op (Op.mail s) rerr
        ∉ (sendEmailDisableAuth net host port s r sub m hn true insecure).events) := by
  have hrun : sendEmailDisableAuth net host port s r sub m hn true insecure
      = Run.after (Event.dial (Dial.tlsDial (address host port) host insecure) none)
          (sendEmail c none s r sub m hn AuthDisable) := by
    simp [sendEmailDisableAuth, getSmtpClient, newImplicitTLSClient, hdial]
  obtain ⟨h1, h2⟩ := startTLS_issued c none s r sub m hn AuthDisable hgreet hadv
  rw [hrun]
  refine ⟨by simp [Run.after], by simp [Run.after, h1], ?_⟩
  intro e he
  obtain ⟨h3, h4⟩ := h2 e he
  exact ⟨by simpa [Run.after] using h3, by simpa [Run.after] using h4⟩

/-- C3, the failing run: implicit TLS to a server that advertises STARTTLS.
The program dials with TLS, greets, issues `StartTLS` inside TLS, and ends
with the error of that call; no mail is sent. -/
theorem implicit_tls_session_invokes_startTLS_witness :
    (sendEmailDisableAuth (netTo clientTLSAdvertising) "mail.example.com" 465 "a@x.com"
        "b@y.com" "Hi" "Hello" "localhost" true false).events
      = [Event.dial (Dial.tlsDial "mail.example.com:465" "mail.example.com" false) none,
          Event.op (Op.hello "localhost") none, Event.extension "STARTTLS" true,
          Event.op Op.startTLS (some errTLSConfig), Event.op Op.close none] ∧
    (sendEmailDisableAuth (netTo clientTLSAdvertising) "mail.example.com" 465 "a@x.com"
        "b@y.com" "Hi" "Hello" "localhost" true false).out
      = Outcome.returned (some (GoError.lib errTLSConfig)) :=
  ⟨by decide,
    ((implicit_tls_session_invokes_startTLS (netTo clientTLSAdvertising) clientTLSAdvertising
      "mail.example.com" 465 "a@x.com" "b@y.com" "Hi" "Hello" "localhost" false rfl
      (by decide) (by decide)).2.2 errTLSConfig (by decide)).1⟩

/-- C9, as the code has it.  With `--help` the program prints the usage text
and ends with status 0, whatever the other flags hold.  Without `--help`:
when one of host, from, to, subject, message, client-hostname is empty or
port < 1, it prints the usage text and ends with status 1; when all of them
are supplied and the `--auth` value is not one of plain, login, anonymous,
external, oauthbearer, disable, it prints nothing on standard output, logs
"Unsupported auth method: " followed by the value, and ends with status 1.
None of the three makes a call to the network. -/
theorem main_rejects_bad_arguments (net : Network) (f : Flags) :
    (f.help = true →
      (main net f).stdout = printUsage ∧ (main net f).stderr = [] ∧
      (main net f).status = 0 ∧ (main net f).events = []) ∧
    (f.help = false →
      (f.host = "" ∨ f.port < 1 ∨ f.sender = "" ∨ f.recipient = "" ∨ f.subject = ""
        ∨ f.message = "" ∨ f.clientHostnameArg = "") →
      (main net f).stdout = printUsage ∧ (main net f).stderr = [errMissingArgs] ∧
      (main net f).status = 1 ∧ (main net f).events = []) ∧
    (f.help = false →
      ¬ (f.host = "" ∨ f.port < 1 ∨ f.sender = "" ∨ f.recipient = "" ∨ f.subject = ""
        ∨ f.message = "" ∨ f.clientHostnameArg = "") →
      f.auth ∉ [AuthPlain, AuthLogin, AuthAnonymous, AuthExternal, AuthOauthBearer, AuthDisable] →
      (main net f).stdout = [] ∧
      (main net f).stderr = ["Unsupported auth method: " ++ f.auth] ∧
      (main net f).status = 1 ∧ (main net f).events = []) := by
  refine ⟨?_, ?_, ?_⟩
  · intro hhelp
    simp only [main, hhelp, if_true, and_self]
  · intro hhelp h
    simp only [main, hhelp, Bool.false_eq_true, if_false, h, if_true, and_self]
  · intro hhelp h hauth
    simp only [List.mem_cons, List.mem_singleton, not_or, List.mem_nil_iff, or_false] at hauth
    obtain ⟨h1, h2, h3, h4, h5, h6⟩ := hauth
    simp only [main, hhelp, Bool.false_eq_true, if_false, h, dispatch, h1, h2, h3, h4, h5, h6,
      Run.fail, GoError.Error, and_self]

/-- Witness for C9: `--help` alone, the flags with `--auth` omitted, and the
default flags, which lack the host.  The flags `flagsDisable`, where
`--subject`, `--message` and `--client-hostname` are not given and so hold
their non-empty defaults, pass the test of line 49 and the mail is sent. -/
theorem main_rejects_bad_arguments_witness :
    (main (netTo clientClosed) flagsDisable).status = 0 ∧
    (main (netTo clientClosed) flagsHelp).stdout = printUsage ∧
    (main (netTo clientClosed) flagsHelp).status = 0 ∧
    (main (netTo clientClosed) flagsNoAuth).stderr = ["Unsupported auth method: "] ∧
    (main (netTo clientClosed) flagsNoAuth).status = 1 ∧
    (main (netTo clientClosed) Flags.defaults).stdout = printUsage ∧
    (main (netTo clientClosed) Flags.defaults).status = 1 :=
  ⟨by decide,
   ((main_rejects_bad_arguments (netTo clientClosed) flagsHelp).1 rfl).1,
   ((main_rejects_bad_arguments (netTo clientClosed) flagsHelp).1 rfl).2.2.1,
   ((main_rejects_bad_arguments (netTo clientClosed) flagsNoAuth).2.2 rfl (by decide)
      (by decide)).2.1,
   ((main_rejects_bad_arguments (netTo clientClosed) flagsNoAuth).2.2 rfl (by decide)
      (by decide)).2.2.1,
   ((main_rejects_bad_arguments (netTo clientClosed) Flags.defaults).2.1 rfl (by decide)).1,
   ((main_rejects_bad_arguments (netTo clientClosed) Flags.defaults).2.1 rfl (by decide)).2.2.1⟩

/-- C10 as stated fails on the code: in the run the claim describes, where
every protocol step succeeds and `Close` returns nil, the deferred function
evaluates `rerr.Error()` on the nil `rerr` and `sendEmail` panics instead of
reporting success. -/
theorem sendEmail_faults_on_nil_close :
    firstStepError
        (sendEmail clientAllNil none "a@x.com" "b@y.com" "Hi" "Hello" "localhost" AuthDisable).events
      = none ∧
    Event.op Op.close none
      ∈ (sendEmail clientAllNil none "a@x.com" "b@y.com" "Hi" "Hello" "localhost" AuthDisable).events ∧
    (sendEmail clientAllNil none "a@x.com" "b@y.com" "Hi" "Hello" "localhost" AuthDisable).out
      = Outcome.panicked := by
  refine ⟨by decide, by decide, by decide⟩

/-- C10, as the code has it: the deferred function of `sendEmail` faults in
exactly the runs in which `Quit` succeeded and `Close` returned nil, the only
runs in which it reads the message of the release error.  On a client whose
`Close` after a successful `Quit` returns an error, as it does when `Quit`
has closed the connection, `sendEmail` never faults: every run returns. -/
theorem sendEmail_faults_only_on_nil_close_after_quit (c : Client) (a : Option SaslClient)
    (s r sub m hn method : String) :
    ((sendEmail c a s r sub m hn method).out = Outcome.panicked ↔
      (Event.op Op.quit none ∈ (sendEmail c a s r sub m hn method).events ∧
        Event.op Op.close none ∈ (sendEmail c a s r sub m hn method).events)) ∧
    (closeFailsAfterQuit c →
      ∃ err, (sendEmail c a s r sub m hn method).out = Outcome.returned err) := by
  refine ⟨panicked_iff c a s r sub m hn method, ?_⟩
  intro hc
  cases hout : (sendEmail c a s r sub m hn method).out with
  | returned err => exact ⟨err, rfl⟩
  | panicked =>
    exfalso
    obtain ⟨hq, hcl⟩ := (panicked_iff c a s r sub m hn method).1 hout
    obtain ⟨h, hev, hno⟩ := close_reply_logged c a s r sub m hn method
    rw [hev] at hq hcl
    simp only [List.mem_append, List.mem_singleton] at hq hcl
    have hq' : Event.op Op.quit none ∈ h := by
      rcases hq with hq | hq
      · exact hq
      · exact absurd hq (by simp)
    rcases hcl with hcl | hcl
    · exact hno none hcl
    · have h1 : c.reply h Op.close = none := by
        have := Event.op.inj hcl
        exact this.2.symm
      exact hc h hq' h1

/-- Witness for C10: the client on which `Close` reports the connection as
already closed keeps that behaviour, and its run returns. -/
theorem sendEmail_faults_only_on_nil_close_after_quit_witness :
    closeFailsAfterQuit clientClosed ∧
    ∃ err, (sendEmail clientClosed none "a@x.com" "b@y.com" "Hi" "Hello" "localhost"
        AuthDisable).out = Outcome.returned err :=
  ⟨fun _ _ => by simp [clientClosed, scripted],
    (sendEmail_faults_only_on_nil_close_after_quit clientClosed none "a@x.com" "b@y.com" "Hi"
      "Hello" "localhost" AuthDisable).2 (fun _ _ => by simp [clientClosed, scripted])⟩

end SmtpConnectionHelper
